import Mathlib

/-!
Verification of the PluginState repository: the `PluginStateService`
interface surface (src/types.ts), the consumer component
`PluginStateTest` (src/PluginStateTest.tsx), and a state-store model
built from the specification of the host-provided state-persistence
service (the store itself is implemented by the host, not by this
repository; only its interface and its callers live here).
-/

set_option autoImplicit false

/-! ## TypeScript type shapes (src/types.ts)

A small grammar of the TypeScript type shapes that occur in the
`PluginStateService` interface, used to record each method's declared
signature exactly as written in `src/types.ts`. -/

inductive Ty where
  | anyT : Ty
  | voidT : Ty
  | boolT : Ty
  | promiseT (t : Ty) : Ty
  | funcT (args : List Ty) (ret : Ty) : Ty

/-- The `PluginStateService` interface from `src/types.ts` (lines 45-56),
each method name paired with its declared type shape. -/
def pluginStateServiceInterface : List (String × Ty) :=
  [ ("configure", .funcT [.anyT] .voidT),
    ("getConfiguration", .funcT [] .anyT),
    ("saveState", .funcT [.anyT] (.promiseT .voidT)),
    ("getState", .funcT [] (.promiseT .anyT)),
    ("clearState", .funcT [] (.promiseT .voidT)),
    ("validateState", .funcT [.anyT] .boolT),
    ("sanitizeState", .funcT [.anyT] .anyT),
    ("onSave", .funcT [.funcT [.anyT] .voidT] (.funcT [] .voidT)),
    ("onRestore", .funcT [.funcT [.anyT] .voidT] (.funcT [] .voidT)),
    ("onClear", .funcT [.funcT [] .voidT] (.funcT [] .voidT)) ]

/-- Look up the declared type of a method in an interface. -/
def methodTy (iface : List (String × Ty)) (name : String) : Option Ty :=
  (iface.find? (fun kv => kv.1 == name)).map (·.2)

/-! ## JSON-like values and snapshots

The snapshots this plugin exchanges with the store are flat objects of
primitives (`TestData`) plus two numbers, so values are primitives or
one-level objects of primitives. -/

inductive Prim where
  | num (n : Int) : Prim
  | str (s : String) : Prim
  | boolean (b : Bool) : Prim
deriving DecidableEq, Repr

inductive Value where
  | prim (p : Prim) : Value
  | obj (fields : List (String × Prim)) : Value
deriving DecidableEq, Repr

/-- A state snapshot: a mapping from field name to value (spec §3). -/
abbrev Snapshot := List (String × Value)

def serializePrim : Prim → String
  | .num n => toString n
  | .str s => "\"" ++ s ++ "\""
  | .boolean b => if b then "true" else "false"

def serializeValue : Value → String
  | .prim p => serializePrim p
  | .obj fields =>
      "\x7b" ++ String.intercalate ","
        (fields.map (fun kv => "\"" ++ kv.1 ++ "\":" ++ serializePrim kv.2)) ++ "\x7d"

/-- JSON-style serialization of a snapshot, used to measure its size. -/
def serializeSnapshot (s : Snapshot) : String :=
  "\x7b" ++ String.intercalate ","
    (s.map (fun kv => "\"" ++ kv.1 ++ "\":" ++ serializeValue kv.2)) ++ "\x7d"

/-- Serialized size in bytes of a snapshot (spec §3: `maxStateSize`
bounds the serialized payload). -/
def serializedSize (s : Snapshot) : Nat :=
  (serializeSnapshot s).length

/-! ## Configuration (spec §3, §4.1) -/

/-- One field of a state schema: `{type, required, default}`. -/
structure FieldSchema where
  type : String
  required : Bool
  deflt : Value
deriving DecidableEq, Repr

structure StateConfig where
  pluginId : String
  stateStrategy : String
  preserveKeys : List String
  stateSchema : List (String × FieldSchema)
  maxStateSize : Int
deriving DecidableEq, Repr

/-- Modelled from the spec: the recognized persistence strategies.  The
spec names session-scoped storage as the observed strategy (§3, §6:
"session" vs. durable). -/
def recognizedStrategies : List String := ["session", "durable"]

/-- Modelled from the spec (§4.1): `configure` validates `pluginId`
non-empty, `stateStrategy` recognized, every key in `preserveKeys`
exists in `stateSchema`, and `maxStateSize` a positive integer. -/
def configIsValid (cfg : StateConfig) : Bool :=
  cfg.pluginId ≠ "" &&
  recognizedStrategies.contains cfg.stateStrategy &&
  cfg.preserveKeys.all (fun k => (cfg.stateSchema.map (·.1)).contains k) &&
  0 < cfg.maxStateSize

/-- The default value the component declares for `testData` in its
schema (src/PluginStateTest.tsx, `configurePluginState`); `now` stands
for `new Date().toISOString()` evaluated at configuration time. -/
def testDataSchemaDefault (now : String) : Value :=
  .obj [ ("counter", .num 0),
         ("textInput", .str ""),
         ("checkboxValue", .boolean false),
         ("selectValue", .str "option1"),
         ("timestamp", .str now) ]

/-- The configuration object `PluginStateTest.configurePluginState`
passes to `services.pluginState.configure` (src/PluginStateTest.tsx). -/
def pluginStateTestConfig (now : String) : StateConfig :=
  { pluginId := "PluginState",
    stateStrategy := "session",
    preserveKeys := ["testData", "saveCount", "restoreCount"],
    stateSchema :=
      [ ("testData", { type := "object", required := false,
                       deflt := testDataSchemaDefault now }),
        ("saveCount", { type := "number", required := false, deflt := .prim (.num 0) }),
        ("restoreCount", { type := "number", required := false, deflt := .prim (.num 0) }) ],
    maxStateSize := 10240 }

/-! ## State store model

Modelled from the spec: the host-provided state-persistence service is
not part of this repository (only its interface `PluginStateService`
and its callers are), so the store below is built from spec §4.2-§4.4,
§6 and §7.  The storage medium is a key-value map keyed by `pluginId`
(§6 downward contract), represented as an association list.  For the
schema-validation policy left open by §9 we take the default-substitution
(recovery) branch of §4.2(b): a field of the wrong type uses its
declared default. -/

inductive StoreError where
  | configurationError (field : String) : StoreError
  | stateTooLargeError : StoreError
  | storageUnavailableError : StoreError
  | notConfiguredError : StoreError
deriving DecidableEq, Repr

/-- The store's state: the active configuration (if any) and the
storage medium keyed by plugin id. -/
structure StoreState where
  config : Option StateConfig
  medium : List (String × Snapshot)
deriving DecidableEq, Repr

def mediumGet (key : String) (m : List (String × Snapshot)) : Option Snapshot :=
  (m.find? (fun kv => kv.1 == key)).map (·.2)

def mediumSet (key : String) (v : Snapshot) (m : List (String × Snapshot)) :
    List (String × Snapshot) :=
  (key, v) :: m.filter (fun kv => !(kv.1 == key))

def mediumDelete (key : String) (m : List (String × Snapshot)) :
    List (String × Snapshot) :=
  m.filter (fun kv => !(kv.1 == key))

/-- Spec §4.2(a): filter a snapshot to only the `preserveKeys` fields,
dropping extras silently. -/
def filterKeys (keys : List String) (s : Snapshot) : Snapshot :=
  s.filter (fun kv => keys.contains kv.1)

/-- Does a value conform to a schema type name? -/
def typeMatches (t : String) (v : Value) : Bool :=
  match v with
  | .prim (.num _) => t == "number"
  | .prim (.str _) => t == "string"
  | .prim (.boolean _) => t == "boolean"
  | .obj _ => t == "object"

/-- Spec §4.2(b) under the default-substitution policy: a field whose
value does not match its declared schema type is replaced by the
schema's default; fields without a schema entry are left as-is. -/
def sanitizeFields (schema : List (String × FieldSchema)) (s : Snapshot) : Snapshot :=
  s.map (fun kv =>
    match (schema.find? (fun e => e.1 == kv.1)).map (·.2) with
    | some fs => if typeMatches fs.type kv.2 then kv else (kv.1, fs.deflt)
    | none => kv)

/-- The payload `saveState` actually serializes and persists for an
incoming snapshot: filtered to `preserveKeys` (§4.2(a)) and
schema-sanitized (§4.2(b)). -/
def savePayload (cfg : StateConfig) (s : Snapshot) : Snapshot :=
  sanitizeFields cfg.stateSchema (filterKeys cfg.preserveKeys s)

/-- The serialized size `saveState` measures in §4.2(c): the size of
the payload it is about to persist. -/
def savePayloadSize (cfg : StateConfig) (s : Snapshot) : Int :=
  (serializedSize (savePayload cfg s) : Int)

/-- Spec §4.3: re-validation on restore.  Ill-typed fields fall back to
their default, and every schema field missing from the persisted
snapshot is filled with its default. -/
def fillDefaults (schema : List (String × FieldSchema)) (s : Snapshot) : Snapshot :=
  sanitizeFields schema s ++
    (schema.filter (fun e => !((s.map (·.1)).contains e.1))).map
      (fun e => (e.1, e.2.deflt))

/-- Spec §4.1: `configure` validates and, on success, replaces the
prior configuration; on failure nothing is retained. -/
def configure (st : StoreState) (cfg : StateConfig) :
    StoreState × Except StoreError Unit :=
  if configIsValid cfg then
    ({ st with config := some cfg }, .ok ())
  else
    (st, .error (.configurationError cfg.pluginId))

/-- Spec §4.2: filter, sanitize, measure, and persist atomically; an
oversized payload rejects with `StateTooLargeError` and leaves the
medium untouched. -/
def saveState (st : StoreState) (s : Snapshot) :
    StoreState × Except StoreError Unit :=
  match st.config with
  | none => (st, .error .notConfiguredError)
  | some cfg =>
      let payload := savePayload cfg s
      if (serializedSize payload : Int) > cfg.maxStateSize then
        (st, .error .stateTooLargeError)
      else
        ({ st with medium := mediumSet cfg.pluginId payload st.medium }, .ok ())

/-- Spec §4.3: return the persisted snapshot for the configured
`pluginId` after default-filling, or `none` ("no state") if none
exists. -/
def getState (st : StoreState) : Except StoreError (Option Snapshot) :=
  match st.config with
  | none => .error .notConfiguredError
  | some cfg =>
      match mediumGet cfg.pluginId st.medium with
      | none => .ok none
      | some s => .ok (some (fillDefaults cfg.stateSchema s))

/-- Spec §4.4: delete the persisted snapshot for `pluginId`;
idempotent, clearing an already-empty state succeeds. -/
def clearState (st : StoreState) : StoreState × Except StoreError Unit :=
  match st.config with
  | none => (st, .error .notConfiguredError)
  | some cfg =>
      ({ st with medium := mediumDelete cfg.pluginId st.medium }, .ok ())

/-! ## Consumer model (`PluginStateTest`, src/PluginStateTest.tsx)

The component is a React class; we embed it as pure transition
functions on its state record.  Each `await services.pluginState.X(...)`
is modelled by passing the service call's outcome as an argument, and
each use of the current wall clock (`toLocaleTimeString`,
`toISOString`) by a string argument. -/

structure TestData where
  counter : Int
  textInput : String
  checkboxValue : Bool
  selectValue : String
  timestamp : String
deriving DecidableEq, Repr

structure ConsumerState where
  testData : TestData
  isLoading : Bool
  error : String
  currentTheme : String
  isInitializing : Bool
  isStateConfigured : Bool
  lastSaveTime : Option String
  lastRestoreTime : Option String
  saveCount : Int
  restoreCount : Int
  debugLogs : List String
deriving DecidableEq, Repr

/-- The `addDebugLog` effect on the raw log list:
`[...prevState.debugLogs.slice(-19), logEntry]` — keep the last 19
previous entries and append the new one. -/
def addDebugLogList (logs : List String) (entry : String) : List String :=
  logs.drop (logs.length - 19) ++ [entry]

/-- Method `PluginStateTest.addDebugLog`: formats `[timestamp] message` and
appends it, keeping at most the last 20 log lines. -/
def addDebugLog (st : ConsumerState) (timestamp message : String) : ConsumerState :=
  { st with debugLogs := addDebugLogList st.debugLogs ("[" ++ timestamp ++ "] " ++ message) }

/-- The string a thrown service error interpolates into the component's
template literals. -/
def errMsg : StoreError → String
  | .configurationError f => "Error: ConfigurationError: " ++ f
  | .stateTooLargeError => "Error: StateTooLargeError"
  | .storageUnavailableError => "Error: StorageUnavailableError"
  | .notConfiguredError => "Error: NotConfiguredError"

/-- Encoding of `TestData` as the JSON object value the component hands to
`saveState` inside the snapshot's `testData` field. -/
def encodeTestData (td : TestData) : Value :=
  .obj [ ("counter", .num td.counter),
         ("textInput", .str td.textInput),
         ("checkboxValue", .boolean td.checkboxValue),
         ("selectValue", .str td.selectValue),
         ("timestamp", .str td.timestamp) ]

/-- The `stateToSave` object built in `PluginStateTest.saveState`:
`{ testData, saveCount: saveCount + 1, restoreCount }`. -/
def stateToSave (st : ConsumerState) : Snapshot :=
  [ ("testData", encodeTestData st.testData),
    ("saveCount", .prim (.num (st.saveCount + 1))),
    ("restoreCount", .prim (.num st.restoreCount)) ]

/-- Method `PluginStateTest.saveState`: sets `isLoading`, awaits the service
call on `stateToSave` (outcome passed as `svc`), and either records
the save (bumping `saveCount`) or catches the rejection, recording an
error message; `now` stands for `toLocaleTimeString()`. -/
def consumerSaveState (st : ConsumerState) (svc : Except StoreError Unit)
    (now : String) : ConsumerState :=
  let st1 := { st with isLoading := true }
  match svc with
  | .ok _ =>
      addDebugLog
        { st1 with isLoading := false, lastSaveTime := some now,
                   saveCount := st1.saveCount + 1 }
        now "State saved successfully"
  | .error e =>
      addDebugLog
        { st1 with isLoading := false,
                   error := "Failed to save state: " ++ errMsg e }
        now ("Save failed: " ++ errMsg e)

/-- The shape `PluginStateTest.restoreState` reads off the value
resolved by `getState()`: the three fields it accesses, each possibly
absent. -/
structure RestoredSnapshot where
  testData : Option TestData
  saveCount : Option Int
  restoreCount : Option Int
deriving DecidableEq, Repr

/-- JavaScript `x || d` for a possibly-missing number: `0` is falsy. -/
def jsOrNum (v : Option Int) (d : Int) : Int :=
  match v with
  | some n => if n = 0 then d else n
  | none => d

/-- Method `PluginStateTest.restoreState`: awaits `getState()` (outcome passed
as `svc`; `ok none` models a falsy resolved value).  A truthy snapshot
replaces `testData` (falling back to the current one when the restored
`testData` is not truthy), sets `saveCount` to `restoredState.saveCount || 0`
and `restoreCount` to `(restoredState.restoreCount || 0) + 1`; a falsy
result leaves the data untouched; a rejection is caught and recorded. -/
def consumerRestoreState (st : ConsumerState)
    (svc : Except StoreError (Option RestoredSnapshot)) (now : String) :
    ConsumerState :=
  let st1 := { st with isLoading := true }
  match svc with
  | .ok (some r) =>
      addDebugLog
        { st1 with
            testData := r.testData.getD st1.testData,
            saveCount := jsOrNum r.saveCount 0,
            restoreCount := jsOrNum r.restoreCount 0 + 1,
            lastRestoreTime := some now,
            isLoading := false }
        now "State restored successfully"
  | .ok none =>
      addDebugLog { st1 with isLoading := false } now "No saved state found"
  | .error e =>
      addDebugLog
        { st1 with isLoading := false,
                   error := "Failed to restore state: " ++ errMsg e }
        now ("Restore failed: " ++ errMsg e)

/-- Method `PluginStateTest.clearState`: awaits `clearState()`; on success
resets the test data, counters and timestamps to their defaults
(`nowIso` stands for the fresh `toISOString()` timestamp); a rejection
is caught and recorded. -/
def consumerClearState (st : ConsumerState) (svc : Except StoreError Unit)
    (now nowIso : String) : ConsumerState :=
  let st1 := { st with isLoading := true }
  match svc with
  | .ok _ =>
      addDebugLog
        { st1 with
            testData := { counter := 0, textInput := "",
                          checkboxValue := false, selectValue := "option1",
                          timestamp := nowIso },
            saveCount := 0,
            restoreCount := 0,
            lastSaveTime := none,
            lastRestoreTime := none,
            isLoading := false }
        now "State cleared successfully"
  | .error e =>
      addDebugLog
        { st1 with isLoading := false,
                   error := "Failed to clear state: " ++ errMsg e }
        now ("Clear failed: " ++ errMsg e)

/-- A `Partial<TestData>` update as passed to `updateTestData`.  The
`timestamp` field can occur in a partial update but is always
overwritten by the fresh timestamp the merge adds. -/
structure TestDataUpdate where
  counter : Option Int
  textInput : Option String
  checkboxValue : Option Bool
  selectValue : Option String
  timestamp : Option String
deriving DecidableEq, Repr

/-- The merge `{ ...prevState.testData, ...updates, timestamp: newISO }`
performed by `updateTestData`. -/
def applyUpdate (td : TestData) (u : TestDataUpdate) (nowIso : String) : TestData :=
  { counter := u.counter.getD td.counter,
    textInput := u.textInput.getD td.textInput,
    checkboxValue := u.checkboxValue.getD td.checkboxValue,
    selectValue := u.selectValue.getD td.selectValue,
    timestamp := nowIso }

/-- Method `PluginStateTest.updateTestData`: merges the partial update into
`testData` with a fresh timestamp, then auto-saves via `saveState`
(the service outcome for that save is passed as `svc`). -/
def updateTestData (st : ConsumerState) (u : TestDataUpdate)
    (nowIso : String) (svc : Except StoreError Unit) (now : String) :
    ConsumerState :=
  consumerSaveState { st with testData := applyUpdate st.testData u nowIso } svc now

def noUpdate : TestDataUpdate :=
  { counter := none, textInput := none, checkboxValue := none,
    selectValue := none, timestamp := none }

/-- Handler `incrementCounter`: `updateTestData` with `counter + 1`. -/
def incrementCounter (st : ConsumerState) (nowIso : String)
    (svc : Except StoreError Unit) (now : String) : ConsumerState :=
  updateTestData st { noUpdate with counter := some (st.testData.counter + 1) } nowIso svc now

/-- Handler `decrementCounter`: `updateTestData` with `counter - 1`. -/
def decrementCounter (st : ConsumerState) (nowIso : String)
    (svc : Except StoreError Unit) (now : String) : ConsumerState :=
  updateTestData st { noUpdate with counter := some (st.testData.counter - 1) } nowIso svc now

/-- Handler `handleTextChange`: `updateTestData` with the new text value. -/
def handleTextChange (st : ConsumerState) (v : String) (nowIso : String)
    (svc : Except StoreError Unit) (now : String) : ConsumerState :=
  updateTestData st { noUpdate with textInput := some v } nowIso svc now

/-- Handler `handleCheckboxChange`: `updateTestData` with the new checked flag. -/
def handleCheckboxChange (st : ConsumerState) (b : Bool) (nowIso : String)
    (svc : Except StoreError Unit) (now : String) : ConsumerState :=
  updateTestData st { noUpdate with checkboxValue := some b } nowIso svc now

/-- Handler `handleSelectChange`: `updateTestData` with the new selection. -/
def handleSelectChange (st : ConsumerState) (v : String) (nowIso : String)
    (svc : Except StoreError Unit) (now : String) : ConsumerState :=
  updateTestData st { noUpdate with selectValue := some v } nowIso svc now

/-! ## Subscription lifecycle (initializeServices / configurePluginState /
cleanupServices) -/

/-- The subscription slots the component instance holds. -/
structure Subs where
  themeChangeListener : Bool
  pageContextUnsubscribe : Bool
  saveStateUnsubscribe : Bool
  restoreStateUnsubscribe : Bool
  clearStateUnsubscribe : Bool
deriving DecidableEq, Repr

/-- The observable unsubscription actions `cleanupServices` can take. -/
inductive CleanupCall where
  | removeThemeListenerCall : CleanupCall
  | pageContextUnsubCall : CleanupCall
  | saveUnsubCall : CleanupCall
  | restoreUnsubCall : CleanupCall
  | clearUnsubCall : CleanupCall
deriving DecidableEq, Repr, BEq

/-- Method `initializeServices`: sets the theme-change listener when the theme
service is present and the page-context unsubscribe when the
page-context service is present; the pluginState unsubscribes are not
set yet. -/
def initSubs (themePresent pagePresent : Bool) : Subs :=
  { themeChangeListener := themePresent,
    pageContextUnsubscribe := pagePresent,
    saveStateUnsubscribe := false,
    restoreStateUnsubscribe := false,
    clearStateUnsubscribe := false }

/-- Method `configurePluginState`: throws when the pluginState service is
absent; otherwise registers the `onSave`/`onRestore`/`onClear` hooks
and keeps their unsubscribe functions. -/
def configureSubs (subs : Subs) (pluginStatePresent : Bool) :
    Except String Subs :=
  if pluginStatePresent then
    .ok { subs with saveStateUnsubscribe := true,
                    restoreStateUnsubscribe := true,
                    clearStateUnsubscribe := true }
  else
    .error "Plugin state service not available"

/-- Method `cleanupServices` (run by `componentWillUnmount`): removes the
theme listener when the theme service and the listener are both
present, then invokes each stored unsubscribe function that is set, in
source order. -/
def cleanupServices (themePresent : Bool) (subs : Subs) : List CleanupCall :=
  (if themePresent && subs.themeChangeListener then [.removeThemeListenerCall] else []) ++
  (if subs.pageContextUnsubscribe then [.pageContextUnsubCall] else []) ++
  (if subs.saveStateUnsubscribe then [.saveUnsubCall] else []) ++
  (if subs.restoreStateUnsubscribe then [.restoreUnsubCall] else []) ++
  (if subs.clearStateUnsubscribe then [.clearUnsubCall] else [])

/-- All fields of a snapshot that have a schema entry match their
declared type. -/
def conforms (schema : List (String × FieldSchema)) (s : Snapshot) : Bool :=
  s.all (fun kv =>
    match (schema.find? (fun e => e.1 == kv.1)).map (·.2) with
    | some fs => typeMatches fs.type kv.2
    | none => true)

/-! ## Theorems -/

/-- C1: the `PluginStateService` interface exposes `configure` with a
synchronous `void` return, `saveState`/`getState`/`clearState`
returning promises, and `onSave`/`onRestore`/`onClear` each taking a
callback and returning a `() => void` unsubscribe function. -/
theorem pluginState_C1_service_surface :
    methodTy pluginStateServiceInterface "configure" = some (.funcT [.anyT] .voidT) ∧
    methodTy pluginStateServiceInterface "saveState" = some (.funcT [.anyT] (.promiseT .voidT)) ∧
    methodTy pluginStateServiceInterface "getState" = some (.funcT [] (.promiseT .anyT)) ∧
    methodTy pluginStateServiceInterface "clearState" = some (.funcT [] (.promiseT .voidT)) ∧
    methodTy pluginStateServiceInterface "onSave" =
      some (.funcT [.funcT [.anyT] .voidT] (.funcT [] .voidT)) ∧
    methodTy pluginStateServiceInterface "onRestore" =
      some (.funcT [.funcT [.anyT] .voidT] (.funcT [] .voidT)) ∧
    methodTy pluginStateServiceInterface "onClear" =
      some (.funcT [.funcT [] .voidT] (.funcT [] .voidT)) :=
  ⟨rfl, rfl, rfl, rfl, rfl, rfl, rfl⟩

/-- C2: the configuration object `configurePluginState` passes to
`configure` satisfies every §4.1 validity condition — non-empty
`pluginId`, recognized `stateStrategy`, `preserveKeys` a subset of the
schema's field names, and a positive integer `maxStateSize`. -/
theorem pluginState_C2_config_valid : ∀ now : String,
    configIsValid (pluginStateTestConfig now) = true ∧
    (pluginStateTestConfig now).pluginId = "PluginState" ∧
    (pluginStateTestConfig now).stateStrategy = "session" ∧
    (pluginStateTestConfig now).preserveKeys = ["testData", "saveCount", "restoreCount"] ∧
    (pluginStateTestConfig now).maxStateSize = 10240 := by
  intro now
  exact ⟨rfl, rfl, rfl, rfl, rfl⟩

/-- C8: after every `addDebugLog` call the log list holds at most 20
entries, the new entry sits at the end, and only the oldest entries
are dropped (the new list is a suffix of the old one plus the new
entry). -/
theorem pluginState_C8_debug_log_bound :
    ∀ (st : ConsumerState) (ts msg : String),
    (addDebugLog st ts msg).debugLogs.length ≤ 20 ∧
    (addDebugLog st ts msg).debugLogs.getLast? = some ("[" ++ ts ++ "] " ++ msg) ∧
    (addDebugLog st ts msg).debugLogs =
      st.debugLogs.drop (st.debugLogs.length - 19) ++ ["[" ++ ts ++ "] " ++ msg] := by
  intro st ts msg
  refine ⟨?_, ?_, rfl⟩
  · simp only [addDebugLog, addDebugLogList, List.length_append, List.length_drop,
      List.length_singleton]
    omega
  · simp [addDebugLog, addDebugLogList]

/-- C6: when the service's `saveState`, `getState`, or `clearState`
rejects, the corresponding consumer operation catches the error (the
transition is total, returning a plain `ConsumerState`), records an
error message, and leaves `testData`, `saveCount` and `restoreCount`
unchanged. -/
theorem pluginState_C6_consumer_error_atomicity :
    ∀ (st : ConsumerState) (e : StoreError) (now nowIso : String),
    ((consumerSaveState st (.error e) now).testData = st.testData ∧
     (consumerSaveState st (.error e) now).saveCount = st.saveCount ∧
     (consumerSaveState st (.error e) now).restoreCount = st.restoreCount ∧
     (consumerSaveState st (.error e) now).error = "Failed to save state: " ++ errMsg e) ∧
    ((consumerRestoreState st (.error e) now).testData = st.testData ∧
     (consumerRestoreState st (.error e) now).saveCount = st.saveCount ∧
     (consumerRestoreState st (.error e) now).restoreCount = st.restoreCount ∧
     (consumerRestoreState st (.error e) now).error = "Failed to restore state: " ++ errMsg e) ∧
    ((consumerClearState st (.error e) now nowIso).testData = st.testData ∧
     (consumerClearState st (.error e) now nowIso).saveCount = st.saveCount ∧
     (consumerClearState st (.error e) now nowIso).restoreCount = st.restoreCount ∧
     (consumerClearState st (.error e) now nowIso).error = "Failed to clear state: " ++ errMsg e) := by
  intro st e now nowIso
  exact ⟨⟨rfl, rfl, rfl, rfl⟩, ⟨rfl, rfl, rfl, rfl⟩, ⟨rfl, rfl, rfl, rfl⟩⟩

/-- C9: a truthy restored snapshot sets `restoreCount` to the restored
value (missing or falsy read as 0) plus one, `saveCount` to the
restored value or 0, and `testData` to the restored one (keeping the
current `testData` when none was restored); a null/undefined `getState`
result leaves all three untouched. -/
theorem pluginState_C9_restore_semantics :
    ∀ (st : ConsumerState) (r : RestoredSnapshot) (now : String),
    ((consumerRestoreState st (.ok (some r)) now).restoreCount = r.restoreCount.getD 0 + 1 ∧
     (consumerRestoreState st (.ok (some r)) now).saveCount = r.saveCount.getD 0 ∧
     (consumerRestoreState st (.ok (some r)) now).testData = r.testData.getD st.testData) ∧
    ((consumerRestoreState st (.ok none) now).testData = st.testData ∧
     (consumerRestoreState st (.ok none) now).saveCount = st.saveCount ∧
     (consumerRestoreState st (.ok none) now).restoreCount = st.restoreCount) := by
  intro st r now
  refine ⟨⟨?_, ?_, rfl⟩, rfl, rfl, rfl⟩
  · show jsOrNum r.restoreCount 0 + 1 = r.restoreCount.getD 0 + 1
    rcases r.restoreCount with _ | n
    · rfl
    · simp only [jsOrNum, Option.getD_some]
      split <;> omega
  · show jsOrNum r.saveCount 0 = r.saveCount.getD 0
    rcases r.saveCount with _ | n
    · rfl
    · simp only [jsOrNum, Option.getD_some]
      split <;> omega

/-- C7: every form-control change merges the partial update into
`testData`, stamps it with the fresh timestamp, and auto-saves; a
successful save bumps `saveCount` by exactly one and records the save
time, and the snapshot handed to the service consists of exactly the
three `preserveKeys` fields. -/
theorem pluginState_C7_autosave_on_change :
    ∀ (st : ConsumerState) (u : TestDataUpdate) (nowIso now : String),
    ((updateTestData st u nowIso (.ok ()) now).testData.counter
        = u.counter.getD st.testData.counter ∧
     (updateTestData st u nowIso (.ok ()) now).testData.textInput
        = u.textInput.getD st.testData.textInput ∧
     (updateTestData st u nowIso (.ok ()) now).testData.checkboxValue
        = u.checkboxValue.getD st.testData.checkboxValue ∧
     (updateTestData st u nowIso (.ok ()) now).testData.selectValue
        = u.selectValue.getD st.testData.selectValue ∧
     (updateTestData st u nowIso (.ok ()) now).testData.timestamp = nowIso) ∧
    (updateTestData st u nowIso (.ok ()) now).saveCount = st.saveCount + 1 ∧
    (updateTestData st u nowIso (.ok ()) now).lastSaveTime = some now ∧
    (∀ s : ConsumerState, (stateToSave s).map (·.1) = (pluginStateTestConfig nowIso).preserveKeys) ∧
    ((incrementCounter st nowIso (.ok ()) now).testData.counter = st.testData.counter + 1 ∧
     (incrementCounter st nowIso (.ok ()) now).saveCount = st.saveCount + 1) ∧
    ((decrementCounter st nowIso (.ok ()) now).testData.counter = st.testData.counter - 1 ∧
     (decrementCounter st nowIso (.ok ()) now).saveCount = st.saveCount + 1) ∧
    (∀ v : String, (handleTextChange st v nowIso (.ok ()) now).testData.textInput = v ∧
     (handleTextChange st v nowIso (.ok ()) now).testData.timestamp = nowIso) ∧
    (∀ b : Bool, (handleCheckboxChange st b nowIso (.ok ()) now).testData.checkboxValue = b) ∧
    (∀ v : String, (handleSelectChange st v nowIso (.ok ()) now).testData.selectValue = v) := by
  intro st u nowIso now
  exact ⟨⟨rfl, rfl, rfl, rfl, rfl⟩, rfl, rfl, fun s => rfl,
         ⟨rfl, rfl⟩, ⟨rfl, rfl⟩, fun v => ⟨rfl, rfl⟩, fun b => rfl, fun v => rfl⟩

/-- C10: on unmount `cleanupServices` removes the theme listener when
one was registered and invokes each held unsubscribe function exactly
once — and none that was never set; after a successful initialization
(`initSubs` then `configureSubs` with the pluginState service present)
the three lifecycle unsubscribes are all set. -/
theorem pluginState_C10_cleanup_unsubscribes :
    ∀ (tp pp : Bool) (subs : Subs),
    configureSubs (initSubs tp pp) true =
      .ok { themeChangeListener := tp, pageContextUnsubscribe := pp,
            saveStateUnsubscribe := true, restoreStateUnsubscribe := true,
            clearStateUnsubscribe := true } ∧
    (cleanupServices tp subs).count .removeThemeListenerCall
      = (if tp && subs.themeChangeListener then 1 else 0) ∧
    (cleanupServices tp subs).count .pageContextUnsubCall
      = (if subs.pageContextUnsubscribe then 1 else 0) ∧
    (cleanupServices tp subs).count .saveUnsubCall
      = (if subs.saveStateUnsubscribe then 1 else 0) ∧
    (cleanupServices tp subs).count .restoreUnsubCall
      = (if subs.restoreStateUnsubscribe then 1 else 0) ∧
    (cleanupServices tp subs).count .clearUnsubCall
      = (if subs.clearStateUnsubscribe then 1 else 0) := by
  intro tp pp subs
  obtain ⟨a, b, c, d, e⟩ := subs
  cases tp <;> cases pp <;> cases a <;> cases b <;> cases c <;> cases d <;> cases e <;>
    exact ⟨rfl, rfl, rfl, rfl, rfl, rfl⟩

lemma find?_filter_of_imp {α : Type} (p q : α → Bool) (l : List α)
    (h : ∀ x, p x = true → q x = true) :
    (l.filter q).find? p = l.find? p := by
  induction l with
  | nil => rfl
  | cons a t ih =>
    by_cases hq : q a = true
    · rw [List.filter_cons_of_pos hq]
      by_cases hp : p a = true
      · rw [List.find?_cons_of_pos _ hp, List.find?_cons_of_pos _ hp]
      · rw [List.find?_cons_of_neg _ hp, List.find?_cons_of_neg _ hp, ih]
    · rw [List.filter_cons_of_neg hq, ih, List.find?_cons_of_neg]
      intro hp
      exact hq (h a hp)

lemma mediumGet_set_self (k : String) (v : Snapshot) (m : List (String × Snapshot)) :
    mediumGet k (mediumSet k v m) = some v := by
  simp [mediumGet, mediumSet, List.find?]

lemma mediumGet_delete_self (k : String) (m : List (String × Snapshot)) :
    mediumGet k (mediumDelete k m) = none := by
  have h : (mediumDelete k m).find? (fun kv => kv.1 == k) = none := by
    rw [List.find?_eq_none]
    intro x hx
    have := (List.mem_filter.mp hx).2
    simp only [Bool.not_eq_true'] at this
    simp [this]
  simp [mediumGet, h]

lemma mediumGet_delete_other (k pid : String) (m : List (String × Snapshot))
    (hne : k ≠ pid) : mediumGet k (mediumDelete pid m) = mediumGet k m := by
  unfold mediumGet mediumDelete
  rw [find?_filter_of_imp]
  intro x hx
  have hxk : x.1 = k := by simpa using hx
  simp [hxk, hne]

lemma mediumDelete_idem (k : String) (m : List (String × Snapshot)) :
    mediumDelete k (mediumDelete k m) = mediumDelete k m := by
  unfold mediumDelete
  rw [List.filter_filter]
  simp

/-- C5: `clearState` succeeds, a following `getState` reports "no
state", a second `clearState` succeeds and changes nothing
(idempotence), and only the configured plugin's entry of the medium is
removed — every other key is untouched. -/
theorem pluginState_C5_clear_idempotent :
    ∀ (cfg : StateConfig) (st : StoreState), st.config = some cfg →
    (clearState st).2 = .ok () ∧
    getState (clearState st).1 = .ok none ∧
    clearState (clearState st).1 = ((clearState st).1, .ok ()) ∧
    mediumGet cfg.pluginId (clearState st).1.medium = none ∧
    (∀ k : String, k ≠ cfg.pluginId →
      mediumGet k (clearState st).1.medium = mediumGet k st.medium) := by
  intro cfg st h
  obtain ⟨c, m⟩ := st
  simp only [] at h
  subst h
  refine ⟨rfl, ?_, ?_, ?_, ?_⟩
  · simp [clearState, getState, mediumGet_delete_self]
  · simp [clearState, mediumDelete_idem]
  · simp [clearState, mediumGet_delete_self]
  · intro k hk
    simp [clearState, mediumGet_delete_other k cfg.pluginId m hk]

def demoConfig : StateConfig := pluginStateTestConfig "2025-01-01T00:00:00.000Z"

/-- A configured store with a persisted snapshot for this plugin and
one for another plugin. -/
def c5Store : StoreState :=
  { config := some demoConfig,
    medium := [ ("PluginState", [("saveCount", .prim (.num 2))]),
                ("OtherPlugin", []) ] }

/-- Witness for C5 at a concrete configured store. -/
theorem pluginState_C5_witness :
    (clearState c5Store).2 = .ok () ∧
    getState (clearState c5Store).1 = .ok none ∧
    clearState (clearState c5Store).1 = ((clearState c5Store).1, .ok ()) ∧
    mediumGet "PluginState" (clearState c5Store).1.medium = none ∧
    mediumGet "OtherPlugin" (clearState c5Store).1.medium = mediumGet "OtherPlugin" c5Store.medium := by
  have h := pluginState_C5_clear_idempotent demoConfig c5Store rfl
  exact ⟨h.1, h.2.1, h.2.2.1, h.2.2.2.1, h.2.2.2.2 "OtherPlugin" (by decide)⟩

/-- C4: a snapshot whose serialized payload exceeds `maxStateSize` is
rejected with `StateTooLargeError` and the store — configuration and
medium alike — is left exactly as it was (atomic all-or-nothing). -/
theorem pluginState_C4_too_large_atomic :
    ∀ (cfg : StateConfig) (st : StoreState) (S : Snapshot),
    st.config = some cfg →
    savePayloadSize cfg S > cfg.maxStateSize →
    saveState st S = (st, .error .stateTooLargeError) := by
  intro cfg st S h hsize
  obtain ⟨c, m⟩ := st
  simp only [] at h
  subst h
  have hsize' : ((serializedSize (savePayload cfg S) : Int) > cfg.maxStateSize) := hsize
  simp only [saveState]
  rw [if_pos hsize']

def smallConfig : StateConfig :=
  { pluginId := "p", stateStrategy := "session", preserveKeys := ["saveCount"],
    stateSchema := [("saveCount", { type := "number", required := false,
                                    deflt := .prim (.num 0) })],
    maxStateSize := 1 }

def smallStore : StoreState := { config := some smallConfig, medium := [] }

def oversizedSnap : Snapshot := [("saveCount", .prim (.num 5))]

/-- Witness for C4: a payload of 15 serialized bytes against a
1-byte `maxStateSize`. -/
theorem pluginState_C4_witness :
    savePayloadSize smallConfig oversizedSnap > smallConfig.maxStateSize ∧
    saveState smallStore oversizedSnap = (smallStore, .error .stateTooLargeError) :=
  ⟨by decide, pluginState_C4_too_large_atomic smallConfig smallStore oversizedSnap rfl (by decide)⟩

lemma sanitize_of_conforms (schema : List (String × FieldSchema)) (s : Snapshot)
    (h : conforms schema s = true) : sanitizeFields schema s = s := by
  induction s with
  | nil => rfl
  | cons kv t ih =>
    simp only [conforms, List.all_cons, Bool.and_eq_true] at h
    obtain ⟨h1, h2⟩ := h
    simp only [sanitizeFields, List.map_cons]
    have htail : sanitizeFields schema t = t := ih h2
    simp only [sanitizeFields] at htail
    rw [htail]
    cases hfind : (schema.find? (fun e => e.1 == kv.1)).map (·.2) with
    | none => rfl
    | some fs =>
      rw [hfind] at h1
      have h1' : typeMatches fs.type kv.2 = true := h1
      simp [h1']

lemma conforms_filter (schema : List (String × FieldSchema)) (p : String × Value → Bool)
    (s : Snapshot) (h : conforms schema s = true) :
    conforms schema (s.filter p) = true := by
  simp only [conforms, List.all_eq_true] at *
  intro kv hkv
  exact h kv (List.mem_filter.mp hkv).1

lemma mem_keys_filterKeys (pk : List String) (S : Snapshot) (k : String)
    (hpk : k ∈ pk) (hmem : k ∈ S.map (·.1)) :
    k ∈ (filterKeys pk S).map (·.1) := by
  obtain ⟨kv, hkv, hfst⟩ := List.mem_map.mp hmem
  refine List.mem_map.mpr ⟨kv, ?_, hfst⟩
  refine List.mem_filter.mpr ⟨hkv, ?_⟩
  rw [hfst]
  exact List.elem_iff.mpr hpk

lemma fillDefaults_of_covering (schema : List (String × FieldSchema)) (s : Snapshot)
    (hconf : conforms schema s = true)
    (hcov : ∀ e ∈ schema, (s.map (·.1)).contains e.1 = true) :
    fillDefaults schema s = s := by
  unfold fillDefaults
  rw [sanitize_of_conforms schema s hconf]
  have hnil : schema.filter (fun e => !((s.map (·.1)).contains e.1)) = [] := by
    rw [List.filter_eq_nil_iff]
    intro e he
    rw [hcov e he]
    simp
  rw [hnil]
  simp

/-- C3 (amended): for a snapshot that carries a schema-conforming
value for every preserved key, a save whose serialized payload fits in
`maxStateSize` succeeds, and `getState` then returns exactly the
`preserveKeys` fields of the snapshot with their saved values.  (For
snapshots missing preserved fields, `getState` fills the gaps with the
schema defaults — see the counterexample.) -/
theorem pluginState_C3_preserved_roundtrip :
    ∀ (cfg : StateConfig) (st : StoreState) (S : Snapshot),
    st.config = some cfg →
    (∀ k ∈ cfg.stateSchema.map (·.1), k ∈ cfg.preserveKeys) →
    (∀ k ∈ cfg.preserveKeys, k ∈ S.map (·.1)) →
    conforms cfg.stateSchema S = true →
    savePayloadSize cfg S ≤ cfg.maxStateSize →
    (saveState st S).2 = .ok () ∧
    getState (saveState st S).1 = .ok (some (filterKeys cfg.preserveKeys S)) := by
  intro cfg st S hcfg hschema hkeys hconf hsize
  obtain ⟨c, m⟩ := st
  simp only [] at hcfg
  subst hcfg
  have hconfF : conforms cfg.stateSchema (filterKeys cfg.preserveKeys S) = true :=
    conforms_filter _ _ _ hconf
  have hpayload : savePayload cfg S = filterKeys cfg.preserveKeys S := by
    unfold savePayload
    exact sanitize_of_conforms _ _ hconfF
  have hnotbig : ¬ ((serializedSize (savePayload cfg S) : Int) > cfg.maxStateSize) :=
    not_lt.mpr hsize
  constructor
  · simp only [saveState]
    rw [if_neg hnotbig]
  · simp only [saveState]
    rw [if_neg hnotbig]
    simp only [getState, mediumGet_set_self]
    rw [hpayload, fillDefaults_of_covering]
    · exact hconfF
    · intro e he
      have h1 : e.1 ∈ cfg.stateSchema.map (·.1) := List.mem_map.mpr ⟨e, he, rfl⟩
      have h2 : e.1 ∈ (filterKeys cfg.preserveKeys S).map (·.1) :=
        mem_keys_filterKeys _ _ _ (hschema _ h1) (hkeys _ (hschema _ h1))
      exact List.elem_iff.mpr h2

def c3Store : StoreState := { config := some demoConfig, medium := [] }

/-- A snapshot carrying only `saveCount`: the other two preserved
fields are absent. -/
def c3PartialSnap : Snapshot := [("saveCount", .prim (.num 1))]

/-- What `getState` actually returns after saving `c3PartialSnap`: the
saved field plus the schema defaults for the two missing preserved
fields. -/
def c3Restored : Snapshot :=
  [ ("saveCount", .prim (.num 1)),
    ("testData", testDataSchemaDefault "2025-01-01T00:00:00.000Z"),
    ("restoreCount", .prim (.num 0)) ]

set_option maxRecDepth 16384 in
/-- C3 as stated fails: saving the in-budget snapshot
`(saveCount 1)` succeeds, but `getState` does not return a snapshot
containing exactly the `preserveKeys` fields of it — the result also
carries `testData` and `restoreCount`, default-filled per §4.3. -/
theorem pluginState_C3_counterexample :
    savePayloadSize demoConfig c3PartialSnap ≤ demoConfig.maxStateSize ∧
    (saveState c3Store c3PartialSnap).2 = .ok () ∧
    getState (saveState c3Store c3PartialSnap).1 = .ok (some c3Restored) ∧
    c3Restored ≠ filterKeys demoConfig.preserveKeys c3PartialSnap ∧
    c3Restored.map (·.1) ≠ (filterKeys demoConfig.preserveKeys c3PartialSnap).map (·.1) := by
  refine ⟨by decide, rfl, rfl, by decide, by decide⟩

/-- A full, schema-conforming snapshot as the component itself builds
one. -/
def c3FullSnap : Snapshot :=
  [ ("testData", encodeTestData
      { counter := 2, textInput := "hi", checkboxValue := true,
        selectValue := "option2", timestamp := "2025-01-02T00:00:00.000Z" }),
    ("saveCount", .prim (.num 3)),
    ("restoreCount", .prim (.num 1)) ]

set_option maxRecDepth 16384 in
/-- Witness for the amended C3 at a concrete full snapshot. -/
theorem pluginState_C3_witness :
    (saveState c3Store c3FullSnap).2 = .ok () ∧
    getState (saveState c3Store c3FullSnap).1 =
      .ok (some (filterKeys demoConfig.preserveKeys c3FullSnap)) :=
  pluginState_C3_preserved_roundtrip demoConfig c3Store c3FullSnap rfl
    (by decide) (by decide) (by decide) (by decide)
